import Mathlib

/-!
Shallow embedding of `pz5.py` (an OpenFoodFacts desktop client).

The functional core embedded here:
  * `extract_kcal` (lines 63-79): nutrient extraction with null-coalescing,
  * `format_product_details` (lines 82-128): detail text formatting,
  * the product-extraction step of `MainWindow.search_by_barcode`
    (lines 248-253) and the empty-result step of `MainWindow.search_by_name`
    (lines 264-269), both taken after the HTTP layer: the parsed JSON body
    of the response is the input.

JSON values are modelled by the inductive `Json`; Python dictionaries
returned by `requests`' `r.json()` are association lists
`List (String × Json)`.  A JSON `null` parses to Python `None`, so a
stored `Json.null` and an absent key are indistinguishable through
one-argument `dict.get`; `pyGet` folds both to `none`.  Python truthiness
(`if not x`, `x or y`) on JSON-derived values is `Json.truthy` /
`optTruthy`.  Numbers are modelled as rationals; the string rendering of a
number (`pyStr`) abstracts Python's `str()` digit format, which no claim
depends on.
-/

namespace Pz5

/-- A JSON value, as produced by `r.json()`. -/
inductive Json where
  | null
  | num (q : ℚ)
  | str (s : String)
  | obj (fields : List (String × Json))
  | arr (items : List Json)

/-- First binding of a key in a Python dict / JSON object (raw: a stored
null is returned as `some Json.null`). -/
def lookupField : List (String × Json) → String → Option Json
  | [], _ => none
  | (k, v) :: rest, key => if k = key then some v else lookupField rest key

/-- One-argument `dict.get(key)` on a dict holding parsed JSON: an absent
key and a stored JSON null both come back as Python `None` (`none`). -/
def pyGet (m : List (String × Json)) (k : String) : Option Json :=
  match lookupField m k with
  | some Json.null => none
  | some v => some v
  | none => none

/-- Python truthiness of a parsed JSON value: `None`, `0`, `""`, `{}` and
`[]` are falsy. -/
def Json.truthy : Json → Bool
  | .null => false
  | .num q => decide (q ≠ 0)
  | .str s => decide (s ≠ "")
  | .obj [] => false
  | .obj (_ :: _) => true
  | .arr [] => false
  | .arr (_ :: _) => true

/-- Truthiness of a `dict.get` result (`None` is falsy). -/
def optTruthy : Option Json → Bool
  | none => false
  | some j => j.truthy

/-- Python `a or b`: `a` when truthy, else `b`. -/
def pyOr (a b : Option Json) : Option Json :=
  if optTruthy a then a else b

/-- Python `str()` of a scalar JSON value, as interpolated by the
f-strings of `format_product_details`.  The digit format of numbers and
the rendering of containers abstract CPython's exact `repr`; no claim
depends on them. -/
def pyStr : Json → String
  | .null => "None"
  | .num q => toString q
  | .str s => s
  | .obj _ => "dict"
  | .arr _ => "list"

/-- The dict built by `extract_kcal` (lines 69-79).  Its possible keys are
fixed, so it is a record of optional values; the comprehension
`{k: v for k, v in data.items() if v is not None}` that drops `None`
values corresponds to a field being `none`. -/
structure NutrientSummary where
  kcal_100g : Option Json
  protein_100g : Option Json
  fat_100g : Option Json
  carbs_100g : Option Json
  kcal_serving : Option Json
  protein_serving : Option Json
  fat_serving : Option Json
  carbs_serving : Option Json

/-- `extract_kcal` (lines 63-79): `get = nutriments.get`; the `kcal_100g`
slot is `get("energy-kcal_100g") or get("energy-kcal_value")`, every other
slot a plain `get`. -/
def extract_kcal (m : List (String × Json)) : NutrientSummary :=
  { kcal_100g := pyOr (pyGet m "energy-kcal_100g") (pyGet m "energy-kcal_value")
    protein_100g := pyGet m "proteins_100g"
    fat_100g := pyGet m "fat_100g"
    carbs_100g := pyGet m "carbohydrates_100g"
    kcal_serving := pyGet m "energy-kcal_serving"
    protein_serving := pyGet m "proteins_serving"
    fat_serving := pyGet m "fat_serving"
    carbs_serving := pyGet m "carbohydrates_serving" }

/-- `not nutr` on the filtered dict: true iff no key survived. -/
def isEmptySummary (n : NutrientSummary) : Bool :=
  n.kcal_100g.isNone && n.protein_100g.isNone && n.fat_100g.isNone &&
  n.carbs_100g.isNone && n.kcal_serving.isNone && n.protein_serving.isNone &&
  n.fat_serving.isNone && n.carbs_serving.isNone

/-- `any(k.endswith("_serving") for k in nutr.keys())` (line 116): among
the eight possible keys, exactly the four serving keys end in
`"_serving"`, so the check is the presence of any serving field. -/
def hasServing (n : NutrientSummary) : Bool :=
  n.kcal_serving.isSome || n.protein_serving.isSome ||
  n.fat_serving.isSome || n.carbs_serving.isSome

/-- Presence of any per-100g field in the summary. -/
def has100g (n : NutrientSummary) : Bool :=
  n.kcal_100g.isSome || n.protein_100g.isSome ||
  n.fat_100g.isSome || n.carbs_100g.isSome

/-- The product record consumed by `format_product_details`.  The five
header fields are read by one-argument `.get` (absent and stored null fold
to `none`); `nutriments` is the nested nutrient mapping, read with
`.get("nutriments", ...)` defaulting to an empty dict, modelled as `[]`
when absent. -/
structure ProductRecord where
  product_name : Option Json
  brands : Option Json
  code : Option Json
  quantity : Option Json
  serving_size : Option Json
  nutriments : List (String × Json)

/-- Rendering of a header field: `product.get(k) or "—"` interpolated into
an f-string — the stored value's `str()` when truthy, the dash otherwise. -/
def dashStr (o : Option Json) : String :=
  match o with
  | some j => if j.truthy then pyStr j else "—"
  | none => "—"

/-- `if "k" in nutr: lines.append(label + str(nutr["k"]))`: one line when
the field is present, nothing otherwise. -/
def optLine (label : String) (o : Option Json) : List String :=
  match o with
  | some j => [label ++ pyStr j]
  | none => []

/-- The `lines` list built by `format_product_details` (lines 94-126). -/
def format_lines (p : ProductRecord) : List String :=
  let nutr := extract_kcal p.nutriments
  ["Название: " ++ dashStr p.product_name,
   "Бренд: " ++ dashStr p.brands,
   "Штрихкод: " ++ dashStr p.code,
   "Упаковка: " ++ dashStr p.quantity,
   "Порция: " ++ dashStr p.serving_size,
   "",
   "Питательные вещества:"]
  ++ (if isEmptySummary nutr then ["  данные о БЖУ не найдены"]
      else
        optLine "  Калории на 100 г: " nutr.kcal_100g
        ++ optLine "  Белок на 100 г: " nutr.protein_100g
        ++ optLine "  Жиры на 100 г: " nutr.fat_100g
        ++ optLine "  Углеводы на 100 г: " nutr.carbs_100g
        ++ (if hasServing nutr then
              ["", "На порцию:"]
              ++ optLine "  Калории на порцию: " nutr.kcal_serving
              ++ optLine "  Белок на порцию: " nutr.protein_serving
              ++ optLine "  Жиры на порцию: " nutr.fat_serving
              ++ optLine "  Углеводы на порцию: " nutr.carbs_serving
            else []))

/-- `format_product_details` (lines 82-128): `"\n".join(lines)`. -/
def format_product_details (p : ProductRecord) : String :=
  String.intercalate "\n" (format_lines p)

/-- Product extraction of `MainWindow.search_by_barcode` (lines 248-253),
after the HTTP layer: `product = data.get("product")`; a falsy `product`
(absent key, null, empty object) takes the `"Продукт не найден."` early
return, modelled as `none`; otherwise the nested value is formatted. -/
def search_by_barcode (data : List (String × Json)) : Option Json :=
  let product := pyGet data "product"
  if optTruthy product then product else none

/-- Result-list extraction of `MainWindow.search_by_name`
(lines 264-269), after the HTTP layer:
`products = data.get("products", [])`; a falsy `products` (absent key,
stored null, empty array) takes the `"Ничего не найдено."` early return,
modelled as `none` — `self.current_products` keeps the `[]` it was reset
to and no table row is built.  Otherwise the truthy value is kept and the
row loop runs over it. -/
def search_by_name (data : List (String × Json)) : Option Json :=
  let products := (lookupField data "products").getD (Json.arr [])
  if products.truthy then some products else none

/-- Spec-side description of one nutrient line: the label glued to the
value when the field is present, nothing otherwise. -/
def specNutrientLine (pr : String × Option Json) : Option String :=
  pr.2.map (fun j => pr.1 ++ pyStr j)

/-- Spec-side description of the formatter output, following §4.3 of the
specification: five header lines (placeholder dash when the field is
absent; present falsy values render per the code, see the companion
claim on falsy header fields), the nutrients section header, then —
unless the summary is empty, in which case a single no-data line — the
per-100g lines for whichever of calories/protein/fat/carbs are present,
in that fixed order, and, only if a per-serving field is present, a blank
separator, a per-serving header and the per-serving lines in the same
order. -/
def spec_format_lines (p : ProductRecord) : List String :=
  let n := extract_kcal p.nutriments
  ["Название: " ++ dashStr p.product_name,
   "Бренд: " ++ dashStr p.brands,
   "Штрихкод: " ++ dashStr p.code,
   "Упаковка: " ++ dashStr p.quantity,
   "Порция: " ++ dashStr p.serving_size,
   "",
   "Питательные вещества:"]
  ++ (if isEmptySummary n then ["  данные о БЖУ не найдены"]
      else
        ([("  Калории на 100 г: ", n.kcal_100g),
          ("  Белок на 100 г: ", n.protein_100g),
          ("  Жиры на 100 г: ", n.fat_100g),
          ("  Углеводы на 100 г: ", n.carbs_100g)].filterMap specNutrientLine)
        ++ (if hasServing n then
              ["", "На порцию:"]
              ++ ([("  Калории на порцию: ", n.kcal_serving),
                   ("  Белок на порцию: ", n.protein_serving),
                   ("  Жиры на порцию: ", n.fat_serving),
                   ("  Углеводы на порцию: ", n.carbs_serving)].filterMap
                     specNutrientLine)
            else []))

/-- `nutriments.get(k)` under an exception-aware reading: `dict.get` is
total for every key (it never raises `KeyError`), so the step always
succeeds. -/
def dictGetE (m : List (String × Json)) (k : String) :
    Except String (Option Json) :=
  Except.ok (pyGet m k)

/-- `extract_kcal` re-read in the exception monad, one monadic step per
`get` the source performs (lines 68-78); the final dict build and the
`None`-dropping comprehension are pure. -/
def extract_kcal_e (m : List (String × Json)) : Except String NutrientSummary := do
  let kcalPrimary ← dictGetE m "energy-kcal_100g"
  let kcalFallback ← dictGetE m "energy-kcal_value"
  let protein100 ← dictGetE m "proteins_100g"
  let fat100 ← dictGetE m "fat_100g"
  let carbs100 ← dictGetE m "carbohydrates_100g"
  let kcalServ ← dictGetE m "energy-kcal_serving"
  let proteinServ ← dictGetE m "proteins_serving"
  let fatServ ← dictGetE m "fat_serving"
  let carbsServ ← dictGetE m "carbohydrates_serving"
  pure
    { kcal_100g := pyOr kcalPrimary kcalFallback
      protein_100g := protein100
      fat_100g := fat100
      carbs_100g := carbs100
      kcal_serving := kcalServ
      protein_serving := proteinServ
      fat_serving := fatServ
      carbs_serving := carbsServ }

/-! ### Helper lemmas -/

/-- Two strings differ when they already differ on an initial segment
lying inside the left summand of an append. -/
lemma append_ne_target (pre t : String) (n : Nat) (hlen : n ≤ pre.data.length)
    (hne : pre.data.take n ≠ t.data.take n) (s : String) : pre ++ s ≠ t := by
  intro h
  apply hne
  have hd : pre.data ++ s.data = t.data := by
    simpa [String.data_append] using congrArg String.data h
  rw [← hd, List.take_append_of_le_length hlen]

/-- A string starting with a nonempty piece is not the empty string. -/
lemma append_ne_blank (pre s : String) (h : pre.data ≠ []) : pre ++ s ≠ "" := by
  intro hh
  apply h
  have hd : pre.data ++ s.data = ([] : List Char) := by
    simpa [String.data_append] using congrArg String.data hh
  exact (List.append_eq_nil.mp hd).1

/-- A target string avoided by every line the label can produce is not in
the emitted block for that field. -/
lemma not_mem_optLine (t label : String) (o : Option Json)
    (h : ∀ s, label ++ s ≠ t) : t ∉ optLine label o := by
  cases o with
  | none => simp [optLine]
  | some j =>
      simp only [optLine, List.mem_singleton]
      intro hh
      exact h (pyStr j) hh.symm

/-- A summary with a per-100g field is not empty. -/
lemma isEmptySummary_eq_false (n : NutrientSummary) (h : has100g n = true) :
    isEmptySummary n = false := by
  obtain ⟨k1, p1, f1, c1, k2, p2, f2, c2⟩ := n
  cases k1 <;> cases p1 <;> cases f1 <;> cases c1 <;>
    simp_all [has100g, isEmptySummary]

/-- The explicit four-entry `filterMap` of the spec-side description
agrees with the four conditional appends of the code. -/
lemma filterMap_four (l1 l2 l3 l4 : String) (o1 o2 o3 o4 : Option Json) :
    ([(l1, o1), (l2, o2), (l3, o3), (l4, o4)].filterMap specNutrientLine)
      = optLine l1 o1 ++ optLine l2 o2 ++ optLine l3 o3 ++ optLine l4 o4 := by
  cases o1 <;> cases o2 <;> cases o3 <;> cases o4 <;>
    simp [optLine, specNutrientLine]

/-- A falsy header value renders as the placeholder dash. -/
lemma dash_of_falsy (o : Option Json) (h : optTruthy o = false) :
    dashStr o = "—" := by
  cases o with
  | none => rfl
  | some j =>
      simp only [optTruthy] at h
      simp [dashStr, h]

/-! ### Claims -/

/-- C1, counterexample.  The source key `"energy-kcal_100g"` is present
with the non-null value `0`, yet the output has no `kcal_100g` entry: the
Python `or` coalescing treats the falsy `0` as absent and the fallback
key is missing, so the claim "every source key present with a non-null
value (including zero) yields the corresponding output entry" is false. -/
theorem extract_kcal_zero_dropped_cex :
    pyGet [("energy-kcal_100g", Json.num 0)] "energy-kcal_100g"
        = some (Json.num 0)
    ∧ (extract_kcal [("energy-kcal_100g", Json.num 0)]).kcal_100g = none :=
  ⟨rfl, rfl⟩

/-- C1, amended.  `extract_kcal` returns exactly the renamed source keys
whose value is present (not absent/null): each of the seven non-coalesced
output fields equals the `dict.get` of its source key (so zero values are
kept and missing/null keys yield no entry), while the coalesced `kcal_100g`
field is the primary `"energy-kcal_100g"` value when that value is truthy
(present, non-null, non-zero) and the `"energy-kcal_value"` value
otherwise — in particular a present-but-zero primary energy value yields
the fallback, not itself. -/
theorem extract_kcal_amended (m : List (String × Json)) :
    (extract_kcal m).protein_100g = pyGet m "proteins_100g"
    ∧ (extract_kcal m).fat_100g = pyGet m "fat_100g"
    ∧ (extract_kcal m).carbs_100g = pyGet m "carbohydrates_100g"
    ∧ (extract_kcal m).kcal_serving = pyGet m "energy-kcal_serving"
    ∧ (extract_kcal m).protein_serving = pyGet m "proteins_serving"
    ∧ (extract_kcal m).fat_serving = pyGet m "fat_serving"
    ∧ (extract_kcal m).carbs_serving = pyGet m "carbohydrates_serving"
    ∧ (optTruthy (pyGet m "energy-kcal_100g") = true →
        (extract_kcal m).kcal_100g = pyGet m "energy-kcal_100g")
    ∧ (optTruthy (pyGet m "energy-kcal_100g") = false →
        (extract_kcal m).kcal_100g = pyGet m "energy-kcal_value") := by
  refine ⟨rfl, rfl, rfl, rfl, rfl, rfl, rfl, ?_, ?_⟩ <;>
    · intro h
      simp [extract_kcal, pyOr, h]

/-- C1, witness: on the map of the specification's worked example, a
truthy primary energy value and a zero protein value both come through. -/
theorem extract_kcal_amended_witness :
    (extract_kcal [("energy-kcal_100g", Json.num 52),
        ("proteins_100g", Json.num 0)]).kcal_100g = some (Json.num 52)
    ∧ (extract_kcal [("energy-kcal_100g", Json.num 52),
        ("proteins_100g", Json.num 0)]).protein_100g = some (Json.num 0) := by
  have h := extract_kcal_amended
    [("energy-kcal_100g", Json.num 52), ("proteins_100g", Json.num 0)]
  refine ⟨?_, ?_⟩
  · rw [h.2.2.2.2.2.2.2.1 (by rfl)]
    rfl
  · rw [h.1]
    rfl

/-- C2, counterexample.  With the primary `"energy-kcal_100g"` present
and non-null (value `0`) and the fallback `"energy-kcal_value"` also
present (value `52`), the output `kcal_100g` is the fallback `52`, not
the primary `0`: a falsy primary does not win, refuting "present
(non-null)" as the stated condition. -/
theorem extract_kcal_primary_cex :
    pyGet [("energy-kcal_100g", Json.num 0), ("energy-kcal_value", Json.num 52)]
        "energy-kcal_100g" = some (Json.num 0)
    ∧ (extract_kcal [("energy-kcal_100g", Json.num 0),
        ("energy-kcal_value", Json.num 52)]).kcal_100g = some (Json.num 52)
    ∧ (extract_kcal [("energy-kcal_100g", Json.num 0),
        ("energy-kcal_value", Json.num 52)]).kcal_100g ≠ some (Json.num 0) := by
  refine ⟨rfl, rfl, ?_⟩
  intro h
  rw [show (extract_kcal [("energy-kcal_100g", Json.num 0),
      ("energy-kcal_value", Json.num 52)]).kcal_100g = some (Json.num 52)
    from rfl] at h
  injection h with h1
  injection h1 with h2
  exact absurd h2 (by norm_num)

/-- C2, amended.  When the primary `"energy-kcal_100g"` value is truthy
(present, non-null and non-zero), `extract_kcal` sets `kcal_100g` to that
primary value and the fallback spelling is ignored. -/
theorem extract_kcal_primary_amended (m : List (String × Json))
    (h : optTruthy (pyGet m "energy-kcal_100g") = true) :
    (extract_kcal m).kcal_100g = pyGet m "energy-kcal_100g" := by
  simp [extract_kcal, pyOr, h]

/-- C2, witness: a truthy primary (52) wins over a present fallback (99). -/
theorem extract_kcal_primary_amended_witness :
    (extract_kcal [("energy-kcal_100g", Json.num 52),
        ("energy-kcal_value", Json.num 99)]).kcal_100g = some (Json.num 52) := by
  rw [extract_kcal_primary_amended
    [("energy-kcal_100g", Json.num 52), ("energy-kcal_value", Json.num 99)]
    (by rfl)]
  rfl

/-- C8.  `extract_kcal` is total on every string-keyed nutrient map: read
in the exception monad with one step per `dict.get` the source performs,
it always succeeds, returning the pure result — so it never raises, on
the empty map as on maps missing any or all of the eight source keys. -/
theorem extract_kcal_total (m : List (String × Json)) :
    extract_kcal_e m = Except.ok (extract_kcal m) := rfl

/-- C3, counterexample.  A body whose `product` key holds an empty object
is not mapped to that object: `if not product` treats the falsy empty
dict as not-found, so the lookup yields an absent result although the
`product` key is present in the body. -/
theorem search_by_barcode_cex :
    lookupField [("product", Json.obj [])] "product" = some (Json.obj [])
    ∧ search_by_barcode [("product", Json.obj [])] = none
    ∧ search_by_barcode [("product", Json.obj [])] ≠ some (Json.obj []) := by
  refine ⟨rfl, rfl, ?_⟩
  intro h
  rw [show search_by_barcode [("product", Json.obj [])] = none from rfl] at h
  exact Option.noConfusion h

/-- C3, amended.  The barcode lookup returns the nested `product` value
of the JSON body exactly when that value is truthy (present, non-null,
non-empty); it returns an absent result when the `product` key is missing
or null, and also when its value is falsy (e.g. an empty object). -/
theorem search_by_barcode_amended (data : List (String × Json)) (p : Json) :
    search_by_barcode data = some p
      ↔ (pyGet data "product" = some p ∧ p.truthy = true) := by
  unfold search_by_barcode
  cases hp : pyGet data "product" with
  | none => simp [optTruthy]
  | some j =>
      cases ht : j.truthy with
      | false =>
          simp only [optTruthy, ht, if_neg Bool.false_ne_true, if_false,
            Option.some.injEq]
          constructor
          · intro h
            exact Option.noConfusion h
          · rintro ⟨he, htp⟩
            cases he
            rw [ht] at htp
            exact Bool.noConfusion htp
      | true =>
          simp only [optTruthy, ht, if_true, Option.some.injEq]
          constructor
          · intro h
            cases h
            exact ⟨rfl, ht⟩
          · rintro ⟨he, _⟩
            exact he

/-- C7.  A search body whose `products` key is absent or holds an empty
array takes the early `"Ничего не найдено."` return, modelled as `none`:
the stored result list keeps the `[]` it was reset to and no row of the
results table is built — a normal not-found outcome, not a raised
error. -/
theorem search_by_name_empty (data : List (String × Json))
    (h : lookupField data "products" = none
      ∨ lookupField data "products" = some (Json.arr [])) :
    search_by_name data = none := by
  unfold search_by_name
  rcases h with h | h <;> simp [h, Json.truthy]

/-- C7, witness: a body carrying an explicitly empty `products` array is
a not-found outcome. -/
theorem search_by_name_empty_witness :
    search_by_name [("products", Json.arr []), ("count", Json.num 0)] = none :=
  search_by_name_empty _ (Or.inr rfl)

/-- C4.  On a product whose nutrient map extracts to an empty summary,
the formatted block is exactly the five header lines, the blank line, the
nutrients section header and the single literal no-data line — so it ends
in `"  данные о БЖУ не найдены"` and contains no numeric nutrient
line. -/
theorem format_no_data (p : ProductRecord)
    (h : isEmptySummary (extract_kcal p.nutriments) = true) :
    format_lines p =
      ["Название: " ++ dashStr p.product_name,
       "Бренд: " ++ dashStr p.brands,
       "Штрихкод: " ++ dashStr p.code,
       "Упаковка: " ++ dashStr p.quantity,
       "Порция: " ++ dashStr p.serving_size,
       "",
       "Питательные вещества:",
       "  данные о БЖУ не найдены"]
    ∧ (format_lines p).getLast? = some "  данные о БЖУ не найдены" := by
  have h1 : format_lines p =
      ["Название: " ++ dashStr p.product_name,
       "Бренд: " ++ dashStr p.brands,
       "Штрихкод: " ++ dashStr p.code,
       "Упаковка: " ++ dashStr p.quantity,
       "Порция: " ++ dashStr p.serving_size,
       "",
       "Питательные вещества:",
       "  данные о БЖУ не найдены"] := by
    simp [format_lines, h]
  refine ⟨h1, ?_⟩
  rw [h1]
  rfl

/-- C4, witness: a product carrying only a nutrient key the extractor
does not read formats down to the no-data line. -/
theorem format_no_data_witness :
    (format_lines
        ⟨some (Json.str "Вода"), none, none, none, none,
          [("fiber_100g", Json.num 3)]⟩).getLast?
      = some "  данные о БЖУ не найдены" :=
  (format_no_data
    ⟨some (Json.str "Вода"), none, none, none, none,
      [("fiber_100g", Json.num 3)]⟩ rfl).2

/-- C9.  Composing the extractor and the formatter is deterministic: on a
product with both per-100g and per-serving data, two calls on identical
input produce the same ordered line sequence and the same joined text —
the embedding is a pure function of the record. -/
theorem format_deterministic (p q : ProductRecord) (hpq : p = q)
    (_h100 : has100g (extract_kcal p.nutriments) = true)
    (_hserv : hasServing (extract_kcal p.nutriments) = true) :
    format_lines p = format_lines q
    ∧ format_product_details p = format_product_details q := by
  subst hpq
  exact ⟨rfl, rfl⟩

/-- C9, witness: determinism on a concrete product carrying both a
per-100g and a per-serving value. -/
theorem format_deterministic_witness :
    format_lines
        ⟨none, none, none, none, none,
          [("energy-kcal_100g", Json.num 52),
           ("energy-kcal_serving", Json.num 20)]⟩
      = format_lines
        ⟨none, none, none, none, none,
          [("energy-kcal_100g", Json.num 52),
           ("energy-kcal_serving", Json.num 20)]⟩
    ∧ format_product_details
        ⟨none, none, none, none, none,
          [("energy-kcal_100g", Json.num 52),
           ("energy-kcal_serving", Json.num 20)]⟩
      = format_product_details
        ⟨none, none, none, none, none,
          [("energy-kcal_100g", Json.num 52),
           ("energy-kcal_serving", Json.num 20)]⟩ :=
  format_deterministic _ _ rfl (by rfl) (by rfl)

/-- C10.  A header field that is present but falsy (e.g. an empty product
name) renders the placeholder dash exactly as if the key were missing:
the output coincides with the output on the record with the field
removed, and the first line is the dash line. -/
theorem format_falsy_name_dash (p : ProductRecord)
    (h : optTruthy p.product_name = false) :
    format_lines p = format_lines { p with product_name := none }
    ∧ (format_lines p)[0]? = some "Название: —" := by
  constructor
  · simp only [format_lines, dash_of_falsy p.product_name h]
    rfl
  · rw [show (format_lines p)[0]?
        = some ("Название: " ++ dashStr p.product_name) from rfl,
      dash_of_falsy p.product_name h]
    rfl

/-- C10, witness: an empty-string product name renders the dash and
matches the record without the key. -/
theorem format_falsy_name_dash_witness :
    format_lines ⟨some (Json.str ""), none, none, none, none, []⟩
      = format_lines ⟨none, none, none, none, none, []⟩
    ∧ (format_lines
        ⟨some (Json.str ""), none, none, none, none, []⟩)[0]?
      = some "Название: —" :=
  format_falsy_name_dash
    ⟨some (Json.str ""), none, none, none, none, []⟩ (by rfl)

/-- C6.  The formatter emits the header lines in the fixed order name,
brand, code, package quantity, serving size, then the nutrients section,
and the per-100g nutrient lines in the fixed order calories, protein,
fat, carbs, one labelled line per present summary field with absent
fields skipped entirely: the output coincides with the spec-side
description `spec_format_lines`, and each absent header field renders
the placeholder dash at its fixed position. -/
theorem format_fixed_order (p : ProductRecord) :
    format_lines p = spec_format_lines p
    ∧ (p.product_name = none → (format_lines p)[0]? = some "Название: —")
    ∧ (p.brands = none → (format_lines p)[1]? = some "Бренд: —")
    ∧ (p.code = none → (format_lines p)[2]? = some "Штрихкод: —")
    ∧ (p.quantity = none → (format_lines p)[3]? = some "Упаковка: —")
    ∧ (p.serving_size = none → (format_lines p)[4]? = some "Порция: —") := by
  refine ⟨?_, ?_, ?_, ?_, ?_, ?_⟩
  · simp only [format_lines, spec_format_lines, filterMap_four,
      List.append_assoc]
  · intro h
    rw [show (format_lines p)[0]?
        = some ("Название: " ++ dashStr p.product_name) from rfl, h]
    rfl
  · intro h
    rw [show (format_lines p)[1]?
        = some ("Бренд: " ++ dashStr p.brands) from rfl, h]
    rfl
  · intro h
    rw [show (format_lines p)[2]?
        = some ("Штрихкод: " ++ dashStr p.code) from rfl, h]
    rfl
  · intro h
    rw [show (format_lines p)[3]?
        = some ("Упаковка: " ++ dashStr p.quantity) from rfl, h]
    rfl
  · intro h
    rw [show (format_lines p)[4]?
        = some ("Порция: " ++ dashStr p.serving_size) from rfl, h]
    rfl

/-- C6, witness: on a record with all header fields absent and one
per-100g nutrient, the code output matches the spec-side description and
every header position carries the dash. -/
theorem format_fixed_order_witness :
    format_lines ⟨none, none, none, none, none, [("fat_100g", Json.num 1)]⟩
      = spec_format_lines
          ⟨none, none, none, none, none, [("fat_100g", Json.num 1)]⟩
    ∧ (format_lines
        ⟨none, none, none, none, none, [("fat_100g", Json.num 1)]⟩)[0]?
      = some "Название: —"
    ∧ (format_lines
        ⟨none, none, none, none, none, [("fat_100g", Json.num 1)]⟩)[4]?
      = some "Порция: —" := by
  have h := format_fixed_order
    ⟨none, none, none, none, none, [("fat_100g", Json.num 1)]⟩
  exact ⟨h.1, h.2.1 rfl, h.2.2.2.2.2 rfl⟩

/-- C5.  On a product whose extracted summary has at least one per-100g
field and no per-serving field, the formatter emits no per-serving header
`"На порцию:"`, and no blank separator besides the single fixed blank
line after the header block (so none before a serving section): the
per-serving section appears only when a per-serving field is present. -/
theorem format_serving_only_when_present (p : ProductRecord)
    (h1 : has100g (extract_kcal p.nutriments) = true)
    (h2 : hasServing (extract_kcal p.nutriments) = false) :
    "На порцию:" ∉ format_lines p ∧ (format_lines p).count "" = 1 := by
  have hne : isEmptySummary (extract_kcal p.nutriments) = false :=
    isEmptySummary_eq_false _ h1
  have hL : format_lines p =
      ["Название: " ++ dashStr p.product_name,
       "Бренд: " ++ dashStr p.brands,
       "Штрихкод: " ++ dashStr p.code,
       "Упаковка: " ++ dashStr p.quantity,
       "Порция: " ++ dashStr p.serving_size,
       "",
       "Питательные вещества:"]
      ++ (optLine "  Калории на 100 г: " (extract_kcal p.nutriments).kcal_100g
        ++ (optLine "  Белок на 100 г: " (extract_kcal p.nutriments).protein_100g
        ++ (optLine "  Жиры на 100 г: " (extract_kcal p.nutriments).fat_100g
        ++ optLine "  Углеводы на 100 г: "
            (extract_kcal p.nutriments).carbs_100g))) := by
    simp [format_lines, hne, h2, List.append_assoc]
  constructor
  · rw [hL]
    intro hmem
    simp only [List.mem_append, List.mem_cons, List.not_mem_nil,
      or_false] at hmem
    rcases hmem with (h | h | h | h | h | h | h) | h | h | h | h
    · exact append_ne_target "Название: " "На порцию:" 3
        (by decide) (by decide) _ h.symm
    · exact append_ne_target "Бренд: " "На порцию:" 1
        (by decide) (by decide) _ h.symm
    · exact append_ne_target "Штрихкод: " "На порцию:" 1
        (by decide) (by decide) _ h.symm
    · exact append_ne_target "Упаковка: " "На порцию:" 1
        (by decide) (by decide) _ h.symm
    · exact append_ne_target "Порция: " "На порцию:" 1
        (by decide) (by decide) _ h.symm
    · exact absurd h (by decide)
    · exact absurd h (by decide)
    · exact not_mem_optLine _ _ _
        (append_ne_target "  Калории на 100 г: " "На порцию:" 1
          (by decide) (by decide)) h
    · exact not_mem_optLine _ _ _
        (append_ne_target "  Белок на 100 г: " "На порцию:" 1
          (by decide) (by decide)) h
    · exact not_mem_optLine _ _ _
        (append_ne_target "  Жиры на 100 г: " "На порцию:" 1
          (by decide) (by decide)) h
    · exact not_mem_optLine _ _ _
        (append_ne_target "  Углеводы на 100 г: " "На порцию:" 1
          (by decide) (by decide)) h
  · have z1 : (optLine "  Калории на 100 г: "
        (extract_kcal p.nutriments).kcal_100g).count "" = 0 :=
      List.count_eq_zero.mpr
        (not_mem_optLine _ _ _ (fun s => append_ne_blank _ s (by decide)))
    have z2 : (optLine "  Белок на 100 г: "
        (extract_kcal p.nutriments).protein_100g).count "" = 0 :=
      List.count_eq_zero.mpr
        (not_mem_optLine _ _ _ (fun s => append_ne_blank _ s (by decide)))
    have z3 : (optLine "  Жиры на 100 г: "
        (extract_kcal p.nutriments).fat_100g).count "" = 0 :=
      List.count_eq_zero.mpr
        (not_mem_optLine _ _ _ (fun s => append_ne_blank _ s (by decide)))
    have z4 : (optLine "  Углеводы на 100 г: "
        (extract_kcal p.nutriments).carbs_100g).count "" = 0 :=
      List.count_eq_zero.mpr
        (not_mem_optLine _ _ _ (fun s => append_ne_blank _ s (by decide)))
    have e1 : (("Название: " ++ dashStr p.product_name) == "") = false :=
      beq_eq_false_iff_ne.mpr (append_ne_blank _ _ (by decide))
    have e2 : (("Бренд: " ++ dashStr p.brands) == "") = false :=
      beq_eq_false_iff_ne.mpr (append_ne_blank _ _ (by decide))
    have e3 : (("Штрихкод: " ++ dashStr p.code) == "") = false :=
      beq_eq_false_iff_ne.mpr (append_ne_blank _ _ (by decide))
    have e4 : (("Упаковка: " ++ dashStr p.quantity) == "") = false :=
      beq_eq_false_iff_ne.mpr (append_ne_blank _ _ (by decide))
    have e5 : (("Порция: " ++ dashStr p.serving_size) == "") = false :=
      beq_eq_false_iff_ne.mpr (append_ne_blank _ _ (by decide))
    rw [hL]
    simp [List.count_append, List.count_cons, e1, e2, e3, e4, e5,
      z1, z2, z3, z4]

/-- C5, witness: a product with only a per-100g protein value emits no
per-serving header and exactly the one fixed blank line. -/
theorem format_serving_only_when_present_witness :
    "На порцию:" ∉ format_lines
        ⟨none, none, none, none, none, [("proteins_100g", Json.num 5)]⟩
    ∧ (format_lines
        ⟨none, none, none, none, none,
          [("proteins_100g", Json.num 5)]⟩).count "" = 1 :=
  format_serving_only_when_present
    ⟨none, none, none, none, none, [("proteins_100g", Json.num 5)]⟩
    (by rfl) (by rfl)

end Pz5
